import Mathlib

/-!
ESP8266UPnP: control, subscription and eventing engine

A shallow embedding of `src/ESP8266UPnP.h` and `src/ESP8266UPnP.cpp`.

Modelling conventions.

* An Arduino `String` is a Lean `String`; `equals` is equality of the texts (Arduino strings
  built from C strings hold no embedded NUL, so `String(s.c_str())` is `s`).
* `unsigned long` is 32 bits wide on the ESP8266: the sum in the debounce test is taken
  modulo `2^32`, and a reading of `millis()` is a natural number below `2^32`.
  Both reads of `millis()` inside one request see the same reading.
* A `String*` owned by the host is an address into a `Heap` of string cells.
* A `std::function` handler is a transformer of the host `Heap`; handlers do not call back
  into the engine.
* Every externally visible call (web server `sendHeader`/`send`, handler invocation,
  `HTTPClient` NOTIFY, `Log.trace`/`Log.error`) is recorded, in program order, in a list of
  `Effect`s.
* Dereferencing a null pointer stops the function: the result is flagged `faulted` and holds
  the state and the effects reached so far.
* The tinyxml2 parser, the UUID generator and the HTTP client are collaborators outside the
  repository; they are parameters of the functions that call them.
-/

namespace UPnP

/-! ## Data model (`ESP8266UPnP.h`) -/

/-- Host memory holding the `String` cells that registered attributes point to. -/
abbrev Heap := Nat → String

/-- The struct `RegisteredSubscription`. -/
structure RegisteredSubscription where
  callbackUrl : String
  sid : String
  deriving DecidableEq, Repr

/-- The struct `StringAttribute`; `attributeValue` is the address of the host cell. -/
structure StringAttribute where
  attributeName : String
  attributeValue : Nat
  lastAttributeValue : String
  deriving DecidableEq, Repr

/-- The struct `ZeroArgAction`. -/
structure ZeroArgAction where
  actionName : String
  callback : Heap → Heap

/-- The struct `OneArgAction`. -/
structure OneArgAction where
  actionName : String
  callback : String → Heap → Heap

/-- The struct `TwoArgAction`. -/
structure TwoArgAction where
  actionName : String
  callback : String → String → Heap → Heap

/-- The data members of class `ESP8266UPnP` (the web server pointer is the environment). -/
structure ESP8266UPnP where
  _actionEndpoint : String
  _actionDebounceTime : Nat
  _lastActionTime : Nat
  _subscriptions : List RegisteredSubscription
  _stringAttributes : List StringAttribute
  _zeroArgActions : List ZeroArgAction
  _oneArgActions : List OneArgAction
  _twoArgActions : List TwoArgAction

/-- Externally visible calls made by the engine, recorded in program order. -/
inductive Effect where
  | sendHeader (name value : String)
  | send (code : Nat) (contentType content : String)
  | call0 (index : Nat)
  | call1 (index : Nat) (arg1 : String)
  | call2 (index : Nat) (arg1 arg2 : String)
  | notify (url contentType payload : String) (httpCode : Int)
  | logTrace (format : String)
  | logError (format : String)
  deriving DecidableEq, Repr

/-- What `ESP8266WebServer` exposes of the request being handled. -/
structure WebRequest where
  header : String → String
  argName0 : String
  arg0 : String

/-- Outcome of one handler or one pass: final engine, final host memory, the effects in
program order, and whether execution stopped at a null dereference. -/
structure Result where
  engine : ESP8266UPnP
  heap : Heap
  effects : List Effect
  faulted : Bool

/-- Number of values of `unsigned long` on the ESP8266 (32 bits). -/
def ULONG_RANGE : Nat := 4294967296

/-- The fixed `Server` response header value. -/
def serverBanner : String := "Arduino/1.0 UPnP/1.1 ESP8266UPnP/1.0"

/-- The content type used for XML responses and NOTIFY requests. -/
def xmlContentType : String := "text/xml; charset=\"utf-8\""

/-! ## Arduino `String` operations used by the source -/

/-- Arduino `String::indexOf(char)`: position of the first occurrence, or `-1`. -/
def indexOfAux (c : Char) : List Char → Nat → Int
  | [], _ => -1
  | d :: rest, i => if d = c then (i : Int) else indexOfAux c rest (i + 1)

/-- Arduino `String::indexOf(char)`. -/
def indexOf (s : String) (c : Char) : Int := indexOfAux c s.data 0

/-- Conversion of an `int` to `unsigned int` (32 bits): the identity on a non-negative `int`,
`2^32 + i` on a negative one. -/
def toUnsigned (i : Int) : Nat := if i < 0 then (i + (ULONG_RANGE : Int)).toNat else i.toNat

/-- Arduino `String::substring(left, right)`: swaps the bounds when `left > right`, yields the
empty string when `left` is past the end, and clamps `right` to the length. -/
def substring (s : String) (left right : Nat) : String :=
  let l := if left > right then right else left
  let r := if left > right then left else right
  if l ≥ s.length then ""
  else
    let r2 := if r > s.length then s.length else r
    String.mk ((s.data.drop l).take (r2 - l))

/-- Arduino `String::substring(beginIndex)`, which is `substring(beginIndex, length)`. -/
def substringFrom (s : String) (beginIndex : Nat) : String :=
  substring s beginIndex s.length

/-- Arduino `String::replace(find, "")` for a one-character `find`: every occurrence goes. -/
def removeChar (s : String) (c : Char) : String :=
  String.mk (s.data.filter (fun d => d != c))

/-- The constructor `String(const char*)`, which yields the empty string for a null pointer. -/
def stringOfCStr : Option String → String
  | some s => s
  | none => ""

/-! ## tinyxml2 accessors used by the source -/

/-- A node of a parsed tinyxml2 document. -/
inductive XMLNode where
  | element (name : String) (attributes : List (String × String)) (children : List XMLNode)
  | text (value : String)
  | comment (value : String)
  | declaration (value : String)
  | unknown (value : String)

/-- A tinyxml2 document after `Parse`: the error code (`0` is `XML_SUCCESS`) and the
top-level nodes. -/
structure XMLDocument where
  errorID : Nat
  children : List XMLNode

/-- The accessor `XMLNode::Value()`: the tag of an element, the text of any other node. -/
def XMLNode.Value : XMLNode → String
  | .element name _ _ => name
  | .text v => v
  | .comment v => v
  | .declaration v => v
  | .unknown v => v

/-- The accessor `XMLNode::FirstChild()`; null when there is no child. -/
def XMLNode.FirstChild : XMLNode → Option XMLNode
  | .element _ _ children => children.head?
  | _ => none

/-- The attributes of `XMLNode::ToElement()`; null when the node is not an element. -/
def XMLNode.ToElement : XMLNode → Option (List (String × String))
  | .element _ attributes _ => some attributes
  | _ => none

/-- Whether a node is an element. -/
def XMLNode.isElement : XMLNode → Bool
  | .element _ _ _ => true
  | _ => false

/-- The accessor `XMLDocument::RootElement()`: the first top-level element, or null. -/
def XMLDocument.RootElement (doc : XMLDocument) : Option XMLNode :=
  doc.children.find? XMLNode.isElement

/-- The accessor `XMLElement::Attribute(name)`: the value of the attribute, or null. -/
def Attribute (attributes : List (String × String)) (name : String) : Option String :=
  (attributes.find? (fun kv => kv.1 == name)).map (fun kv => kv.2)

/-! ## The engine (`ESP8266UPnP.cpp`) -/

/-- The constructor `ESP8266UPnP(webServer)`. -/
def ESP8266UPnP.construct : ESP8266UPnP :=
  { _actionEndpoint := "/upnp/control", _actionDebounceTime := 5000, _lastActionTime := 0,
    _subscriptions := [], _stringAttributes := [], _zeroArgActions := [],
    _oneArgActions := [], _twoArgActions := [] }

/-- The constructor `ESP8266UPnP(webServer, actionEndpoint)`. -/
def ESP8266UPnP.constructAt (actionEndpoint : String) : ESP8266UPnP :=
  { _actionEndpoint := actionEndpoint, _actionDebounceTime := 5000, _lastActionTime := 0,
    _subscriptions := [], _stringAttributes := [], _zeroArgActions := [],
    _oneArgActions := [], _twoArgActions := [] }

/-- The overload `onAction(actionName, ZeroArgHandlerFunction)`. -/
def ESP8266UPnP.onAction0 (self : ESP8266UPnP) (actionName : String) (handler : Heap → Heap) :
    ESP8266UPnP :=
  { self with _zeroArgActions := self._zeroArgActions ++ [⟨actionName, handler⟩] }

/-- The overload `onAction(actionName, OneArgHandlerFunction)`. -/
def ESP8266UPnP.onAction1 (self : ESP8266UPnP) (actionName : String)
    (handler : String → Heap → Heap) : ESP8266UPnP :=
  { self with _oneArgActions := self._oneArgActions ++ [⟨actionName, handler⟩] }

/-- The overload `onAction(actionName, TwoArgHandlerFunction)`. -/
def ESP8266UPnP.onAction2 (self : ESP8266UPnP) (actionName : String)
    (handler : String → String → Heap → Heap) : ESP8266UPnP :=
  { self with _twoArgActions := self._twoArgActions ++ [⟨actionName, handler⟩] }

/-- The method `registerAttribute`: the snapshot is the content of the cell at registration. -/
def ESP8266UPnP.registerAttribute (self : ESP8266UPnP) (heap : Heap) (attributeName : String)
    (attributeValue : Nat) : ESP8266UPnP :=
  { self with _stringAttributes :=
      self._stringAttributes ++ [⟨attributeName, attributeValue, heap attributeValue⟩] }

/-- The method `_createAttributeChangeProperty`. -/
def _createAttributeChangeProperty (attributeName attributeValue : String) : String :=
  "  <e:property>\n" ++
  "    <" ++ attributeName ++ ">" ++ attributeValue ++ "</" ++ attributeName ++ ">\n" ++
  "  </e:property>\n"

/-- The method `_getPropertySet`: the loop appends one property per registered attribute,
reading the value through the attribute's pointer. -/
def ESP8266UPnP._getPropertySet (self : ESP8266UPnP) (heap : Heap) : String :=
  let changedAttributes := self._stringAttributes.foldl
    (fun acc attrib =>
      acc ++ _createAttributeChangeProperty attrib.attributeName (heap attrib.attributeValue))
    ""
  "<?xml version=\"1.0\"?>\n" ++
  "<e:propertyset xmlns:e=\"urn:schemas-upnp-org:event-1-0\">\n" ++
  changedAttributes ++
  "</e:propertyset>"

/-- The scan of `_subscriptions` in the `/upnp/subscribe` handler: true when some entry has
this callback URL (the handler returns at the first one). -/
def alreadyRegistered (callbackUrl : String) : List RegisteredSubscription → Bool
  | [] => false
  | subscription :: rest =>
    if subscription.callbackUrl = callbackUrl then true else alreadyRegistered callbackUrl rest

/-- The `/upnp/subscribe` handler installed by `begin`. `uuidStr` is the text the UUID
generator yields for this request. `send(200)` is recorded with empty type and content. -/
def ESP8266UPnP.onSubscribe (uuidStr : String) (self : ESP8266UPnP) (heap : Heap)
    (req : WebRequest) : Result :=
  let callbackUrl := removeChar (removeChar (req.header "CALLBACK") '>') '<'
  let timeout := req.header "TIMEOUT"
  let logged := [Effect.logTrace "Registering Subscription: %s for %s\n"]
  if alreadyRegistered callbackUrl self._subscriptions then
    { engine := self, heap := heap, effects := logged, faulted := false }
  else
    { engine := { self with _subscriptions := self._subscriptions ++ [⟨callbackUrl, uuidStr⟩] },
      heap := heap,
      effects := logged ++
        [Effect.sendHeader "Server" serverBanner,
         Effect.sendHeader "SID" uuidStr,
         Effect.sendHeader "TIMEOUT" timeout,
         Effect.send 200 "" ""],
      faulted := false }

/-- The `/upnp/attributes` handler installed by `begin`. -/
def ESP8266UPnP.onAttributes (self : ESP8266UPnP) (heap : Heap) : Result :=
  { engine := self, heap := heap,
    effects := [Effect.sendHeader "Server" serverBanner,
                Effect.send 200 xmlContentType (self._getPropertySet heap)],
    faulted := false }

/-- The loop over `_zeroArgActions` in `_onHttpSoapMessage`: entry `i` is invoked when its
name equals the parsed action name. Yields the host memory after the handlers and the calls
made. -/
def dispatchZeroArg (actionName : String) : List ZeroArgAction → Nat → Heap → Heap × List Effect
  | [], _, heap => (heap, [])
  | action :: rest, i, heap =>
    if action.actionName = actionName then
      let r := dispatchZeroArg actionName rest (i + 1) (action.callback heap)
      (r.1, Effect.call0 i :: r.2)
    else dispatchZeroArg actionName rest (i + 1) heap

/-- The response text assembled at the end of `_onHttpSoapMessage`. -/
def soapResponse (actionName serviceType : String) : String :=
  "<?xml version=\"1.0\"?>\n" ++
  "<s:Envelope xmlns:s=\"http://schemas.xmlsoap.org/soap/envelope/\" s:encodingStyle=\"http://schemas.xmlsoap.org/soap/encoding/\">\n" ++
  "  <s:Body>\n" ++
  "    <u:" ++ actionName ++ "Response xmlns:u=\"" ++ serviceType ++ "\">\n" ++
  "      <argumentName>out arg value</argumentName>\n" ++
  "    </u:" ++ actionName ++ "Response>\n" ++
  "  </s:Body>\n" ++
  "</s:Envelope>\n"

/-- The method `_onHttpSoapMessage`. `Parse` is the tinyxml2 parser, `millis` the clock
reading. A null `RootElement()`, `FirstChild()` or `ToElement()` is dereferenced by the
source: the result is then flagged `faulted`. `argCount` is the constant `0` of the source. -/
def ESP8266UPnP._onHttpSoapMessage (Parse : String → XMLDocument) (self : ESP8266UPnP)
    (heap : Heap) (millis : Nat) (req : WebRequest) : Result :=
  if (self._lastActionTime + self._actionDebounceTime) % ULONG_RANGE > millis then
    { engine := self, heap := heap,
      effects := [Effect.logError "Debouncing Soap Control Message\n",
                  Effect.sendHeader "Server" serverBanner,
                  Effect.send 429 xmlContentType "<error>Too Many Requests</error>"],
      faulted := false }
  else
    let self1 := { self with _lastActionTime := millis }
    let xmlBody := req.argName0 ++ "=" ++ req.arg0
    let xml := Parse xmlBody
    let e1 := [Effect.logTrace "Processing SOAP Control Message: %s\n"] ++
      (if xml.errorID ≠ 0 then [Effect.logError "Error Pasing XML: %d\n%s"] else [])
    match xml.RootElement with
    | none => { engine := self1, heap := heap, effects := e1, faulted := true }
    | some root =>
      match root.FirstChild with
      | none => { engine := self1, heap := heap, effects := e1, faulted := true }
      | some body =>
        match body.FirstChild with
        | none => { engine := self1, heap := heap, effects := e1, faulted := true }
        | some actionNode =>
          let action := actionNode.Value
          let sepIndex := indexOf action ':'
          let actionNs := substring action 0 (toUnsigned sepIndex)
          let actionName := substringFrom action (toUnsigned (sepIndex + 1))
          match actionNode.ToElement with
          | none => { engine := self1, heap := heap, effects := e1, faulted := true }
          | some attributes =>
            let serviceType := stringOfCStr (Attribute attributes ("xmlns:" ++ actionNs))
            let e2 := e1 ++ [Effect.logTrace "Action: %s\nServiceType: %s\n"]
            let argCount : Nat := 0
            let d := if argCount = 0 then dispatchZeroArg actionName self1._zeroArgActions 0 heap
                     else (heap, [])
            { engine := self1, heap := d.1,
              effects := e2 ++ d.2 ++
                [Effect.sendHeader "Server" serverBanner,
                 Effect.send 200 xmlContentType (soapResponse actionName serviceType)],
              faulted := false }

/-- The first loop of `handleAttributeChange`: refreshes the snapshot of every attribute
whose cell differs from it. Yields the attributes after the loop, `foundChanged`, and the
trace lines. -/
def detectChanges (heap : Heap) : List StringAttribute → List StringAttribute × Bool × List Effect
  | [] => ([], false, [])
  | attrib :: rest =>
    let newValue := heap attrib.attributeValue
    let r := detectChanges heap rest
    if attrib.lastAttributeValue ≠ newValue then
      ({ attrib with lastAttributeValue := newValue } :: r.1, true,
        Effect.logTrace "Found change in attribute %s.  Old value: %s, new value: %s\n" :: r.2.2)
    else (attrib :: r.1, r.2.1, r.2.2)

/-- The second loop of `handleAttributeChange`: one NOTIFY per subscription, in list order.
`sendRequest i` is the status the HTTP client returns for subscription `i`. -/
def notifySubscriptions (sendRequest : Nat → Int) (fullEventText : String) :
    List RegisteredSubscription → Nat → List Effect
  | [], _ => []
  | subscription :: rest, i =>
    let httpCode := sendRequest i
    [Effect.logTrace "Notifing subscription %s at %s\n",
     Effect.notify subscription.callbackUrl xmlContentType fullEventText httpCode] ++
    (if httpCode > 299 then [Effect.logError "Error notifying subscription.  Response Code: %s"]
     else []) ++
    notifySubscriptions sendRequest fullEventText rest (i + 1)

/-- The method `handleAttributeChange`. -/
def ESP8266UPnP.handleAttributeChange (sendRequest : Nat → Int) (self : ESP8266UPnP)
    (heap : Heap) : Result :=
  let r := detectChanges heap self._stringAttributes
  let self1 := { self with _stringAttributes := r.1 }
  if r.2.1 then
    let fullEventText := self1._getPropertySet heap
    { engine := self1, heap := heap,
      effects := r.2.2 ++ notifySubscriptions sendRequest fullEventText self1._subscriptions 0,
      faulted := false }
  else { engine := self1, heap := heap, effects := r.2.2, faulted := false }

/-! ## Runs and observations -/

/-- A run of the control endpoint: requests paired with their clock readings are handled one
after another; the run ends at the first fault. -/
def controlSequence (Parse : String → XMLDocument) :
    ESP8266UPnP → Heap → List (Nat × WebRequest) → List Result
  | _, _, [] => []
  | self, heap, (millis, req) :: rest =>
    let r := self._onHttpSoapMessage Parse heap millis req
    if r.faulted then [r] else r :: controlSequence Parse r.engine r.heap rest

/-- A run of `/upnp/subscribe`: each request comes with the UUID text generated for it;
yields the engine after the last request. -/
def subscribeSequence (heap : Heap) : ESP8266UPnP → List (String × WebRequest) → ESP8266UPnP
  | self, [] => self
  | self, (uuidStr, req) :: rest =>
    subscribeSequence heap (self.onSubscribe uuidStr heap req).engine rest

/-- The status codes passed to `send`, in order. -/
def sentCodes : List Effect → List Nat
  | [] => []
  | Effect.send code _ _ :: rest => code :: sentCodes rest
  | _ :: rest => sentCodes rest

/-- The bodies passed to `send`, in order. -/
def sentBodies : List Effect → List String
  | [] => []
  | Effect.send _ _ content :: rest => content :: sentBodies rest
  | _ :: rest => sentBodies rest

/-- The response headers passed to `sendHeader`, in order. -/
def sentHeaders : List Effect → List (String × String)
  | [] => []
  | Effect.sendHeader name value :: rest => (name, value) :: sentHeaders rest
  | _ :: rest => sentHeaders rest

/-- The handler invocations (of any arity) in a trace, in order. -/
def handlerCalls : List Effect → List Effect
  | [] => []
  | Effect.call0 i :: rest => Effect.call0 i :: handlerCalls rest
  | Effect.call1 i a :: rest => Effect.call1 i a :: handlerCalls rest
  | Effect.call2 i a b :: rest => Effect.call2 i a b :: handlerCalls rest
  | _ :: rest => handlerCalls rest

/-- The NOTIFY attempts in a trace, in order: target URL, document, returned status. -/
def notifyAttempts : List Effect → List (String × String × Int)
  | [] => []
  | Effect.notify url _ payload httpCode :: rest => (url, payload, httpCode) :: notifyAttempts rest
  | _ :: rest => notifyAttempts rest

/-- The callback URL the subscribe handler derives from the `CALLBACK` header. -/
def strippedCallback (req : WebRequest) : String :=
  removeChar (removeChar (req.header "CALLBACK") '>') '<'

/-- Whether some attribute's cell differs from its snapshot. -/
def anyChanged (heap : Heap) (attributes : List StringAttribute) : Bool :=
  attributes.any (fun a => a.lastAttributeValue != heap a.attributeValue)

/-- The property-set document as the specification words it: the XML declaration, the
opening tag, one block per listed attribute with the cell content, the closing tag. -/
def propertyBlocks (heap : Heap) (attributes : List StringAttribute) : List String :=
  attributes.map (fun a =>
    "  <e:property>\n    <" ++ a.attributeName ++ ">" ++ heap a.attributeValue ++ "</" ++
      a.attributeName ++ ">\n  </e:property>\n")

/-! ## Sample inputs -/

/-- The service type of the sample requests. -/
def sampleServiceType : String := "urn:schemas-upnp-org:service:SwitchPower:1"

/-- A control request body invoking `TurnOn` without arguments. -/
def turnOnBody : String :=
  "<?xml version=\"1.0\"?><s:Envelope xmlns:s=\"http://schemas.xmlsoap.org/soap/envelope/\">" ++
  "<s:Body><u:TurnOn xmlns:u=\"urn:schemas-upnp-org:service:SwitchPower:1\"/></s:Body></s:Envelope>"

/-- A control request body invoking `SetTarget` with one argument `on`. -/
def setTargetBody : String :=
  "<?xml version=\"1.0\"?><s:Envelope xmlns:s=\"http://schemas.xmlsoap.org/soap/envelope/\">" ++
  "<s:Body><u:SetTarget xmlns:u=\"urn:schemas-upnp-org:service:SwitchPower:1\">" ++
  "<newTargetValue>on</newTargetValue></u:SetTarget></s:Body></s:Envelope>"

/-- The document tree of a SOAP envelope around one action node. -/
def envelopeOf (actionNode : XMLNode) : XMLDocument :=
  { errorID := 0,
    children :=
      [XMLNode.declaration "xml version=\"1.0\"",
       XMLNode.element "s:Envelope" [("xmlns:s", "http://schemas.xmlsoap.org/soap/envelope/")]
         [XMLNode.element "s:Body" [] [actionNode]]] }

/-- A parser for the sample bodies: the two well-formed bodies yield their trees, any other
text is rejected with a non-zero error and an empty document. -/
def sampleParse (xmlBody : String) : XMLDocument :=
  if xmlBody = turnOnBody then
    envelopeOf (XMLNode.element "u:TurnOn" [("xmlns:u", sampleServiceType)] [])
  else if xmlBody = setTargetBody then
    envelopeOf (XMLNode.element "u:SetTarget" [("xmlns:u", sampleServiceType)]
      [XMLNode.element "newTargetValue" [] [XMLNode.text "on"]])
  else { errorID := 1, children := [] }

/-- A request with no headers whose form argument splits the body at its first `=`. -/
def controlRequest (argName0 arg0 : String) : WebRequest :=
  { header := fun _ => "", argName0 := argName0, arg0 := arg0 }

/-- The `TurnOn` request as the web server presents it. -/
def turnOnRequest : WebRequest :=
  controlRequest "<?xml version"
    ("\"1.0\"?><s:Envelope xmlns:s=\"http://schemas.xmlsoap.org/soap/envelope/\">" ++
     "<s:Body><u:TurnOn xmlns:u=\"urn:schemas-upnp-org:service:SwitchPower:1\"/></s:Body></s:Envelope>")

/-- The `SetTarget` request as the web server presents it. -/
def setTargetRequest : WebRequest :=
  controlRequest "<?xml version"
    ("\"1.0\"?><s:Envelope xmlns:s=\"http://schemas.xmlsoap.org/soap/envelope/\">" ++
     "<s:Body><u:SetTarget xmlns:u=\"urn:schemas-upnp-org:service:SwitchPower:1\">" ++
     "<newTargetValue>on</newTargetValue></u:SetTarget></s:Body></s:Envelope>")

/-- A request whose body is not XML. -/
def garbageRequest : WebRequest := controlRequest "hello" "world"

/-- A subscribe request with the given `CALLBACK` and `TIMEOUT` headers. -/
def subscribeRequest (callback timeout : String) : WebRequest :=
  { header := fun name =>
      if name = "CALLBACK" then callback else if name = "TIMEOUT" then timeout else "",
    argName0 := "", arg0 := "" }

/-- Host memory with every cell empty. -/
def emptyHeap : Heap := fun _ => ""

/-- Host memory with cell `0` holding `on` and cell `1` holding `50`. -/
def sampleHeap : Heap := fun addr => if addr = 0 then "on" else if addr = 1 then "50" else ""

/-- A zero-argument handler that writes `called` into cell `7`. -/
def markCalled : Heap → Heap := fun heap addr => if addr = 7 then "called" else heap addr

/-- A one-argument handler that writes its argument into cell `8`. -/
def storeArgument : String → Heap → Heap := fun v heap addr => if addr = 8 then v else heap addr

/-- An engine with zero-argument handlers registered under `TurnOn`, `TurnOff`, `TurnOn`,
`turnon` and `SetTarget` (in this order) and a one-argument handler under `SetTarget`. -/
def sampleEngine : ESP8266UPnP :=
  (((((ESP8266UPnP.construct.onAction0 "TurnOn" markCalled).onAction0 "TurnOff" id).onAction0
    "TurnOn" markCalled).onAction0 "turnon" id).onAction0 "SetTarget" markCalled).onAction1
    "SetTarget" storeArgument

/-- The first sample subscribe request: the callback URL in angle brackets. -/
def bracketedSubscribe : WebRequest := subscribeRequest "<http://x/cb>" "Second-1800"

/-- The second sample subscribe request: the same callback URL without the brackets. -/
def bareSubscribe : WebRequest := subscribeRequest "http://x/cb" "Second-300"

/-- Host memory with cell `0` holding `off`. -/
def heapOff : Heap := fun addr => if addr = 0 then "off" else ""

/-- An engine with the attribute `power` registered on cell `0` while it held `off`. -/
def powerEngine : ESP8266UPnP := ESP8266UPnP.construct.registerAttribute heapOff "power" 0

/-- The engine `powerEngine` with two subscribers, `http://a/cb` and `http://b/cb`. -/
def twoSubscriberEngine : ESP8266UPnP :=
  subscribeSequence heapOff powerEngine
    [("uuid-a", subscribeRequest "<http://a/cb>" "Second-1800"),
     ("uuid-b", subscribeRequest "<http://b/cb>" "Second-1800")]

/-- Delivery outcomes in which the first NOTIFY fails with status 500 and the others
succeed. -/
def firstDeliveryFails : Nat → Int := fun i => if i = 0 then 500 else 200

/-- An engine with `power` on cell `0` and `brightness` on cell `1` of `sampleHeap`. -/
def twoAttributeEngine : ESP8266UPnP :=
  (ESP8266UPnP.construct.registerAttribute sampleHeap "power" 0).registerAttribute sampleHeap
    "brightness" 1

/-- The two `replace` calls of the `/upnp/subscribe` handler applied to a `CALLBACK` header
value: first every `>` goes, then every `<`. -/
def normaliseCallback (callback : String) : String :=
  removeChar (removeChar callback '>') '<'

/-- The sample engine after it processed the `TurnOn` request at clock reading 6000. -/
def busyEngine : ESP8266UPnP :=
  (sampleEngine._onHttpSoapMessage sampleParse emptyHeap 6000 turnOnRequest).engine

/-- A control request body whose action tag `u:Set:Target` holds two colons. -/
def setColonTargetBody : String :=
  "<?xml version=\"1.0\"?><s:Envelope xmlns:s=\"http://schemas.xmlsoap.org/soap/envelope/\">" ++
  "<s:Body><u:Set:Target xmlns:u=\"urn:schemas-upnp-org:service:SwitchPower:1\"/></s:Body></s:Envelope>"

/-- The request with action tag `u:Set:Target` as the web server presents it. -/
def setColonTargetRequest : WebRequest :=
  controlRequest "<?xml version"
    ("\"1.0\"?><s:Envelope xmlns:s=\"http://schemas.xmlsoap.org/soap/envelope/\">" ++
     "<s:Body><u:Set:Target xmlns:u=\"urn:schemas-upnp-org:service:SwitchPower:1\"/></s:Body></s:Envelope>")

/-- A parser for the body with the two-colon tag; any other text is rejected. -/
def colonParse (xmlBody : String) : XMLDocument :=
  if xmlBody = setColonTargetBody then
    envelopeOf (XMLNode.element "u:Set:Target" [("xmlns:u", sampleServiceType)] [])
  else { errorID := 1, children := [] }

/-- A clock reading 1000 ms before the 32-bit counter of `millis()` wraps. -/
def nearWrap : Nat := 4294966296

/-- The sample engine after it processed the `TurnOn` request at clock reading `2^32 - 1000`:
its `_lastActionTime` is that reading. -/
def wrapEngine : ESP8266UPnP :=
  (sampleEngine._onHttpSoapMessage sampleParse emptyHeap nearWrap turnOnRequest).engine

/-! ## Arduino `String` facts -/

theorem indexOfAux_append (c : Char) (ns rest : List Char) (i : Nat) (h : c ∉ ns) :
    indexOfAux c (ns ++ c :: rest) i = ((i + ns.length : Nat) : Int) := by
  induction ns generalizing i with
  | nil => simp [indexOfAux]
  | cons d tl ih =>
    have hd : d ≠ c := fun e => h (by simp [e])
    have htl : c ∉ tl := fun e => h (by simp [e])
    rw [List.cons_append, indexOfAux, if_neg hd, ih (i + 1) htl, List.length_cons]
    congr 1
    omega

theorem tag_data (ns A : String) : (ns ++ ":" ++ A).data = ns.data ++ ':' :: A.data := by
  rw [String.data_append, String.data_append]
  show (ns.data ++ [':']) ++ A.data = _
  rw [List.append_assoc]; rfl

theorem tag_length (ns A : String) : (ns ++ ":" ++ A).length = ns.length + 1 + A.length := by
  show (ns ++ ":" ++ A).data.length = ns.data.length + 1 + A.data.length
  rw [tag_data, List.length_append, List.length_cons]
  omega

theorem indexOf_tag (ns A : String) (h : ':' ∉ ns.data) :
    indexOf (ns ++ ":" ++ A) ':' = (ns.length : Int) := by
  unfold indexOf
  rw [tag_data, indexOfAux_append ':' ns.data A.data 0 h, Nat.zero_add]
  rfl

theorem toUnsigned_natCast (n : Nat) : toUnsigned (n : Int) = n := by
  unfold toUnsigned
  have : ¬ ((n : Int) < 0) := by omega
  rw [if_neg this]
  exact Int.toNat_ofNat n

theorem actionNs_of_tag (ns A : String) (h : ':' ∉ ns.data) :
    substring (ns ++ ":" ++ A) 0 (toUnsigned (indexOf (ns ++ ":" ++ A) ':')) = ns := by
  rw [indexOf_tag ns A h, toUnsigned_natCast]
  unfold substring
  have h1 : ¬ (0 > ns.length) := by omega
  have h2 : ¬ (0 ≥ ns.length + 1 + A.length) := by omega
  have h3 : ¬ (ns.length > ns.length + 1 + A.length) := by omega
  simp only [tag_length, h1, h2, h3, if_false, Nat.sub_zero, List.drop_zero, tag_data]
  apply String.ext
  show List.take ns.data.length (ns.data ++ ':' :: A.data) = ns.data
  exact List.take_left' rfl

theorem actionName_of_tag (ns A : String) (h : ':' ∉ ns.data) :
    substringFrom (ns ++ ":" ++ A) (toUnsigned (indexOf (ns ++ ":" ++ A) ':' + 1)) = A := by
  rw [indexOf_tag ns A h]
  have hc : ((ns.length : Int) + 1) = ((ns.length + 1 : Nat) : Int) := by push_cast; rfl
  rw [hc, toUnsigned_natCast]
  unfold substringFrom substring
  have h1 : ¬ (ns.length + 1 > ns.length + 1 + A.length) := by omega
  simp only [tag_length, h1, if_false, tag_data]
  by_cases hA : A.length = 0
  · have h2 : ns.length + 1 ≥ ns.length + 1 + A.length := by omega
    rw [if_pos h2]
    apply String.ext
    have : A.data.length = 0 := hA
    rw [List.length_eq_zero.mp this]
  · have h2 : ¬ (ns.length + 1 ≥ ns.length + 1 + A.length) := by omega
    have h3 : ¬ (ns.length + 1 + A.length > ns.length + 1 + A.length) := by omega
    rw [if_neg h2, if_neg h3]
    apply String.ext
    have hdrop : List.drop (ns.length + 1) (ns.data ++ ':' :: A.data) = A.data := by
      have e : ns.data ++ ':' :: A.data = (ns.data ++ [':']) ++ A.data := by
        rw [List.append_assoc]; rfl
      rw [e]
      apply List.drop_left'
      rw [List.length_append]; rfl
    show List.take (ns.length + 1 + A.length - (ns.length + 1))
      (List.drop (ns.length + 1) (ns.data ++ ':' :: A.data)) = A.data
    rw [hdrop]
    apply List.take_of_length_le
    show A.length ≤ _
    omega

/-! ## Observations of traces -/

theorem sentCodes_append (xs ys : List Effect) :
    sentCodes (xs ++ ys) = sentCodes xs ++ sentCodes ys := by
  induction xs with
  | nil => rfl
  | cons e tl ih => cases e <;> simp [sentCodes, ih]

theorem notifyAttempts_append (xs ys : List Effect) :
    notifyAttempts (xs ++ ys) = notifyAttempts xs ++ notifyAttempts ys := by
  induction xs with
  | nil => rfl
  | cons e tl ih => cases e <;> simp [notifyAttempts, ih]

/-! ## Control endpoint -/

/-- The result of `_onHttpSoapMessage` on a request that passes the debounce test and whose
document has a root element, a first child of it, and an element as first child of that. -/
theorem onHttpSoapMessage_processed (Parse : String → XMLDocument) (self : ESP8266UPnP)
    (heap : Heap) (millis : Nat) (req : WebRequest) (root body : XMLNode)
    (tag : String) (attributes : List (String × String)) (children : List XMLNode)
    (haccept : ¬ (self._lastActionTime + self._actionDebounceTime) % ULONG_RANGE > millis)
    (hroot : (Parse (req.argName0 ++ "=" ++ req.arg0)).RootElement = some root)
    (hbody : root.FirstChild = some body)
    (haction : body.FirstChild = some (XMLNode.element tag attributes children)) :
    self._onHttpSoapMessage Parse heap millis req =
      let actionNs := substring tag 0 (toUnsigned (indexOf tag ':'))
      let actionName := substringFrom tag (toUnsigned (indexOf tag ':' + 1))
      let serviceType := stringOfCStr (Attribute attributes ("xmlns:" ++ actionNs))
      let d := dispatchZeroArg actionName self._zeroArgActions 0 heap
      { engine := { self with _lastActionTime := millis }, heap := d.1,
        effects := [Effect.logTrace "Processing SOAP Control Message: %s\n"] ++
          (if (Parse (req.argName0 ++ "=" ++ req.arg0)).errorID ≠ 0
            then [Effect.logError "Error Pasing XML: %d\n%s"] else []) ++
          [Effect.logTrace "Action: %s\nServiceType: %s\n"] ++ d.2 ++
          [Effect.sendHeader "Server" serverBanner,
           Effect.send 200 xmlContentType (soapResponse actionName serviceType)],
        faulted := false } := by
  unfold ESP8266UPnP._onHttpSoapMessage
  rw [if_neg haccept]
  simp only [hroot, hbody, haction, XMLNode.Value, XMLNode.ToElement, if_true]

set_option maxRecDepth 100000 in
/-- Claim C1, evaluated on the code. A freshly constructed engine (window 5000, last action
time 0) receives control requests at clock readings 0, 1000 and 6000: the first and the
second are answered 429 and only the third is processed (200), since the debounce test
compares the reading with `0 + 5000`. -/
theorem fresh_engine_rejects_first_request :
    (controlSequence sampleParse ESP8266UPnP.construct emptyHeap
      [(0, turnOnRequest), (1000, turnOnRequest), (6000, turnOnRequest)]).map
      (fun r => (sentCodes r.effects, r.engine._lastActionTime)) =
      [([429], 0), ([429], 0), ([200], 6000)] := by
  decide

set_option maxRecDepth 100000 in
/-- Claim C3, evaluated on the code. The sample engine has a one-argument handler and a
zero-argument handler (registration `4`) under `SetTarget`. A processed request whose
`SetTarget` element has the single child `newTargetValue` with text `on` invokes the
zero-argument handler and no one-argument handler: cell `8`, which the one-argument handler
would write, stays empty. -/
theorem one_argument_request_runs_zero_arg_handler :
    handlerCalls
      (sampleEngine._onHttpSoapMessage sampleParse emptyHeap 6000 setTargetRequest).effects =
      [Effect.call0 4] ∧
    (sampleEngine._onHttpSoapMessage sampleParse emptyHeap 6000 setTargetRequest).heap 8 = "" ∧
    (sampleEngine._onHttpSoapMessage sampleParse emptyHeap 6000 setTargetRequest).heap 7 =
      "called" ∧
    sampleEngine._oneArgActions.map (fun a => a.actionName) = ["SetTarget"] := by
  decide

/-- A request that passes the debounce test and whose document has no root element makes
`_onHttpSoapMessage` dereference null: it stops before any `sendHeader` or `send`. -/
theorem onHttpSoapMessage_null_root (Parse : String → XMLDocument) (self : ESP8266UPnP)
    (heap : Heap) (millis : Nat) (req : WebRequest)
    (haccept : ¬ (self._lastActionTime + self._actionDebounceTime) % ULONG_RANGE > millis)
    (hroot : (Parse (req.argName0 ++ "=" ++ req.arg0)).RootElement = none) :
    (self._onHttpSoapMessage Parse heap millis req).faulted = true ∧
    sentCodes (self._onHttpSoapMessage Parse heap millis req).effects = [] := by
  unfold ESP8266UPnP._onHttpSoapMessage
  rw [if_neg haccept]
  simp only [hroot]
  refine ⟨trivial, ?_⟩
  split <;> rfl

set_option maxRecDepth 100000 in
/-- Claim C4, evaluated on the code. The body `hello=world` is not XML: the parser reports an
error and leaves the document empty. The request passes the debounce test (reading 6000 on a
fresh engine), the error is logged, and the handler then dereferences the null root element:
it faults and no response is sent. -/
theorem malformed_body_faults_without_response :
    (ESP8266UPnP.construct._onHttpSoapMessage sampleParse emptyHeap 6000 garbageRequest).faulted
      = true ∧
    (ESP8266UPnP.construct._onHttpSoapMessage sampleParse emptyHeap 6000 garbageRequest).effects
      = [Effect.logTrace "Processing SOAP Control Message: %s\n",
         Effect.logError "Error Pasing XML: %d\n%s"] ∧
    sentCodes
      (ESP8266UPnP.construct._onHttpSoapMessage sampleParse emptyHeap 6000 garbageRequest).effects
      = [] := by
  decide

/-! ## Subscription registry -/

theorem alreadyRegistered_iff (callbackUrl : String) (subs : List RegisteredSubscription) :
    alreadyRegistered callbackUrl subs = true ↔ ∃ s ∈ subs, s.callbackUrl = callbackUrl := by
  induction subs with
  | nil => simp [alreadyRegistered]
  | cons s tl ih =>
    by_cases h : s.callbackUrl = callbackUrl
    · simp [alreadyRegistered, h]
    · simp [alreadyRegistered, h, ih]

theorem onSubscribe_keeps_urls_distinct (uuidStr : String) (self : ESP8266UPnP) (heap : Heap)
    (req : WebRequest) (h : (self._subscriptions.map (fun s => s.callbackUrl)).Nodup) :
    ((self.onSubscribe uuidStr heap req).engine._subscriptions.map
      (fun s => s.callbackUrl)).Nodup := by
  unfold ESP8266UPnP.onSubscribe
  by_cases hreg :
      alreadyRegistered (removeChar (removeChar (req.header "CALLBACK") '>') '<')
        self._subscriptions = true
  · simp only [hreg, if_true]
    exact h
  · simp only [hreg]
    have hnot : ∀ s ∈ self._subscriptions,
        s.callbackUrl ≠ removeChar (removeChar (req.header "CALLBACK") '>') '<' := by
      intro s hs heq
      exact hreg ((alreadyRegistered_iff _ _).mpr ⟨s, hs, heq⟩)
    simp only [Bool.false_eq_true, if_false, List.map_append, List.map_cons, List.map_nil]
    rw [List.nodup_append]
    refine ⟨h, List.nodup_singleton _, ?_⟩
    intro u hu hu2
    rw [List.mem_singleton] at hu2
    rw [List.mem_map] at hu
    obtain ⟨s, hs, hsu⟩ := hu
    exact hnot s hs (hsu.trans hu2)

theorem subscribeSequence_keeps_urls_distinct (heap : Heap) (self : ESP8266UPnP)
    (requests : List (String × WebRequest))
    (h : (self._subscriptions.map (fun s => s.callbackUrl)).Nodup) :
    ((subscribeSequence heap self requests)._subscriptions.map
      (fun s => s.callbackUrl)).Nodup := by
  induction requests generalizing self with
  | nil => exact h
  | cons r tl ih =>
    obtain ⟨uuidStr, req⟩ := r
    exact ih _ (onSubscribe_keeps_urls_distinct uuidStr self heap req h)

theorem onSubscribe_existing (uuidStr : String) (self : ESP8266UPnP) (heap : Heap)
    (req : WebRequest)
    (h : ∃ s ∈ self._subscriptions, s.callbackUrl = strippedCallback req) :
    self.onSubscribe uuidStr heap req =
      { engine := self, heap := heap,
        effects := [Effect.logTrace "Registering Subscription: %s for %s\n"],
        faulted := false } := by
  have hreg := (alreadyRegistered_iff _ _).mpr h
  unfold strippedCallback at hreg
  unfold ESP8266UPnP.onSubscribe
  simp only [hreg, if_true]

/-- Claim C5. After any sequence of subscribe requests starting from an engine with an empty
subscription list, no two entries of `_subscriptions` have the same `callbackUrl`; and a
further subscribe request whose `CALLBACK` header, with every `<` and `>` removed, equals the
`callbackUrl` of an existing entry leaves the engine, hence the subscription list with its
entries, ids and order, unchanged. -/
theorem subscriptions_have_distinct_callback_urls (heap : Heap) (start : ESP8266UPnP)
    (requests : List (String × WebRequest)) (uuidStr : String) (req : WebRequest)
    (hempty : start._subscriptions = []) :
    ((subscribeSequence heap start requests)._subscriptions.map
      (fun s => s.callbackUrl)).Nodup ∧
    ((∃ s ∈ (subscribeSequence heap start requests)._subscriptions,
        s.callbackUrl = strippedCallback req) →
      ((subscribeSequence heap start requests).onSubscribe uuidStr heap req).engine =
        subscribeSequence heap start requests) := by
  refine ⟨subscribeSequence_keeps_urls_distinct heap start requests ?_, ?_⟩
  · rw [hempty]; exact List.nodup_nil
  · intro h
    rw [onSubscribe_existing uuidStr _ heap req h]

set_option maxRecDepth 100000 in
/-- Witness for claim C5: subscribing with `<http://x/cb>` and then with `http://x/cb` leaves
exactly one entry, the one created by the first request. -/
theorem subscriptions_distinct_witness :
    ESP8266UPnP.construct._subscriptions = [] ∧
    (subscribeSequence emptyHeap ESP8266UPnP.construct
      [("uuid-1", bracketedSubscribe), ("uuid-2", bareSubscribe)])._subscriptions =
      [{ callbackUrl := "http://x/cb", sid := "uuid-1" }] ∧
    ((subscribeSequence emptyHeap ESP8266UPnP.construct
      [("uuid-1", bracketedSubscribe)]).onSubscribe "uuid-2" emptyHeap bareSubscribe).engine
      = subscribeSequence emptyHeap ESP8266UPnP.construct [("uuid-1", bracketedSubscribe)] :=
  ⟨rfl, by decide,
   (subscriptions_have_distinct_callback_urls emptyHeap ESP8266UPnP.construct
      [("uuid-1", bracketedSubscribe)] "uuid-2" bareSubscribe rfl).2
      ⟨{ callbackUrl := "http://x/cb", sid := "uuid-1" }, by decide, by decide⟩⟩

set_option maxRecDepth 100000 in
/-- Claim C6, evaluated on the code. The first subscribe request for `<http://x/cb>` is
answered 200 with the headers `Server`, `SID` and `TIMEOUT`. The second request, for the same
URL without brackets, finds the existing entry and returns at once: no header and no status
is sent, so the response carries neither the stored sid nor the `TIMEOUT` header. -/
theorem resubscribe_sends_no_response :
    sentHeaders (ESP8266UPnP.construct.onSubscribe "uuid-1" emptyHeap bracketedSubscribe).effects
      = [("Server", serverBanner), ("SID", "uuid-1"), ("TIMEOUT", "Second-1800")] ∧
    sentCodes (ESP8266UPnP.construct.onSubscribe "uuid-1" emptyHeap bracketedSubscribe).effects
      = [200] ∧
    ((ESP8266UPnP.construct.onSubscribe "uuid-1" emptyHeap bracketedSubscribe).engine.onSubscribe
      "uuid-2" emptyHeap bareSubscribe).effects
      = [Effect.logTrace "Registering Subscription: %s for %s\n"] ∧
    sentHeaders ((ESP8266UPnP.construct.onSubscribe "uuid-1" emptyHeap
      bracketedSubscribe).engine.onSubscribe "uuid-2" emptyHeap bareSubscribe).effects = [] ∧
    sentCodes ((ESP8266UPnP.construct.onSubscribe "uuid-1" emptyHeap
      bracketedSubscribe).engine.onSubscribe "uuid-2" emptyHeap bareSubscribe).effects = [] := by
  decide

/-! ## Property set -/

theorem join_cons (s : String) (ss : List String) :
    String.join (s :: ss) = s ++ String.join ss := by
  rw [String.join_eq, String.join_eq]
  apply String.ext
  rw [String.data_append]
  simp

theorem foldl_append_join (f : StringAttribute → String) (attributes : List StringAttribute)
    (acc : String) :
    attributes.foldl (fun acc a => acc ++ f a) acc = acc ++ String.join (attributes.map f) := by
  induction attributes generalizing acc with
  | nil => simp [String.join]
  | cons a tl ih =>
    rw [List.foldl_cons, ih, List.map_cons, join_cons, String.append_assoc]

theorem createAttributeChangeProperty_eq (attributeName attributeValue : String) :
    _createAttributeChangeProperty attributeName attributeValue =
      "  <e:property>\n    <" ++ attributeName ++ ">" ++ attributeValue ++ "</" ++
        attributeName ++ ">\n  </e:property>\n" := by
  unfold _createAttributeChangeProperty
  have h : ("  <e:property>\n" : String) ++ "    <" = "  <e:property>\n    <" := by decide
  simp only [String.append_assoc]
  have h2 : (">\n" : String) ++ "  </e:property>\n" = ">\n  </e:property>\n" := by decide
  rw [← String.append_assoc "  <e:property>\n" "    <", h, h2]

theorem getPropertySet_eq (self : ESP8266UPnP) (heap : Heap) :
    self._getPropertySet heap =
      "<?xml version=\"1.0\"?>\n" ++
      "<e:propertyset xmlns:e=\"urn:schemas-upnp-org:event-1-0\">\n" ++
      String.join (propertyBlocks heap self._stringAttributes) ++
      "</e:propertyset>" := by
  unfold ESP8266UPnP._getPropertySet propertyBlocks
  simp only []
  rw [foldl_append_join
    (fun a => _createAttributeChangeProperty a.attributeName (heap a.attributeValue))]
  simp only [createAttributeChangeProperty_eq, String.empty_append]

/-- Claim C9. For every list of registered attributes (duplicate names included) and every
content of the host cells, `_getPropertySet` is the XML declaration and the opening
`e:propertyset` tag, then one `e:property` block per registered attribute in registration
order, each wrapping `<name>value</name>` with `value` read from the attribute's cell (not
from `lastAttributeValue`), then `</e:propertyset>`; the number of blocks is the number of
registered attributes. -/
theorem getPropertySet_has_one_block_per_attribute (self : ESP8266UPnP) (heap : Heap) :
    self._getPropertySet heap =
      "<?xml version=\"1.0\"?>\n<e:propertyset xmlns:e=\"urn:schemas-upnp-org:event-1-0\">\n" ++
      String.join (self._stringAttributes.map (fun a =>
        "  <e:property>\n    <" ++ a.attributeName ++ ">" ++ heap a.attributeValue ++ "</" ++
          a.attributeName ++ ">\n  </e:property>\n")) ++
      "</e:propertyset>" ∧
    (propertyBlocks heap self._stringAttributes).length = self._stringAttributes.length ∧
    propertyBlocks heap self._stringAttributes = self._stringAttributes.map (fun a =>
        "  <e:property>\n    <" ++ a.attributeName ++ ">" ++ heap a.attributeValue ++ "</" ++
          a.attributeName ++ ">\n  </e:property>\n") := by
  refine ⟨?_, ?_, rfl⟩
  · rw [getPropertySet_eq]
    have h : ("<?xml version=\"1.0\"?>\n" : String) ++
        "<e:propertyset xmlns:e=\"urn:schemas-upnp-org:event-1-0\">\n" =
        "<?xml version=\"1.0\"?>\n<e:propertyset xmlns:e=\"urn:schemas-upnp-org:event-1-0\">\n" := by
      decide
    rw [h]
    rfl
  · unfold propertyBlocks
    rw [List.length_map]

set_option maxRecDepth 100000 in
/-- The example of claim C9: with `power` holding `on` and `brightness` holding `50` the
document has two blocks. -/
theorem getPropertySet_two_attributes :
    twoAttributeEngine._getPropertySet sampleHeap =
      "<?xml version=\"1.0\"?>\n<e:propertyset xmlns:e=\"urn:schemas-upnp-org:event-1-0\">\n" ++
      "  <e:property>\n    <power>on</power>\n  </e:property>\n" ++
      "  <e:property>\n    <brightness>50</brightness>\n  </e:property>\n" ++
      "</e:propertyset>" ∧
    (propertyBlocks sampleHeap twoAttributeEngine._stringAttributes).length = 2 := by
  decide

/-! ## Change detection and NOTIFY fan-out -/

theorem detectChanges_settled (heap : Heap) (attributes : List StringAttribute) :
    ∀ a ∈ (detectChanges heap attributes).1,
      a.lastAttributeValue = heap a.attributeValue ∧
      ∃ b ∈ attributes, b.attributeValue = a.attributeValue := by
  induction attributes with
  | nil => intro a ha; simp [detectChanges] at ha
  | cons b tl ih =>
    intro a ha
    by_cases hb : b.lastAttributeValue = heap b.attributeValue
    · simp only [detectChanges, hb, ne_eq, not_true_eq_false, if_false, List.mem_cons] at ha
      rcases ha with rfl | ha
      · exact ⟨hb, a, List.mem_cons_self _ _, rfl⟩
      · obtain ⟨h1, c, hc, h2⟩ := ih a ha
        exact ⟨h1, c, List.mem_cons_of_mem _ hc, h2⟩
    · simp only [detectChanges, hb, ne_eq, not_false_eq_true, if_true, List.mem_cons] at ha
      rcases ha with rfl | ha
      · exact ⟨rfl, b, List.mem_cons_self _ _, rfl⟩
      · obtain ⟨h1, c, hc, h2⟩ := ih a ha
        exact ⟨h1, c, List.mem_cons_of_mem _ hc, h2⟩

theorem detectChanges_fixed (heap : Heap) (attributes : List StringAttribute)
    (h : ∀ a ∈ attributes, a.lastAttributeValue = heap a.attributeValue) :
    detectChanges heap attributes = (attributes, false, []) := by
  induction attributes with
  | nil => rfl
  | cons b tl ih =>
    have hb : b.lastAttributeValue = heap b.attributeValue := h b (List.mem_cons_self _ _)
    have htl := ih (fun a ha => h a (List.mem_cons_of_mem _ ha))
    simp only [detectChanges, hb, ne_eq, not_true_eq_false, if_false, htl]

theorem detectChanges_found (heap : Heap) (attributes : List StringAttribute) :
    (detectChanges heap attributes).2.1 = anyChanged heap attributes := by
  induction attributes with
  | nil => rfl
  | cons b tl ih =>
    unfold anyChanged at ih ⊢
    by_cases hb : b.lastAttributeValue = heap b.attributeValue
    · simp [detectChanges, hb, ih]
    · simp [detectChanges, hb, ih]

theorem detectChanges_blocks (heap heap2 : Heap) (attributes : List StringAttribute) :
    propertyBlocks heap2 (detectChanges heap attributes).1 = propertyBlocks heap2 attributes := by
  induction attributes with
  | nil => rfl
  | cons b tl ih =>
    unfold propertyBlocks at ih ⊢
    by_cases hb : b.lastAttributeValue = heap b.attributeValue
    · simp [detectChanges, hb, ih]
    · simp [detectChanges, hb, ih]

theorem detectChanges_logs_only (heap : Heap) (attributes : List StringAttribute) :
    notifyAttempts (detectChanges heap attributes).2.2 = [] := by
  induction attributes with
  | nil => rfl
  | cons b tl ih =>
    by_cases hb : b.lastAttributeValue = heap b.attributeValue
    · simp [detectChanges, hb, ih]
    · simp [detectChanges, hb, ih, notifyAttempts]

theorem notifySubscriptions_attempts (sendRequest : Nat → Int) (fullEventText : String)
    (subs : List RegisteredSubscription) (i : Nat) :
    notifyAttempts (notifySubscriptions sendRequest fullEventText subs i) =
      (subs.enumFrom i).map (fun p => (p.2.callbackUrl, fullEventText, sendRequest p.1)) := by
  induction subs generalizing i with
  | nil => rfl
  | cons s tl ih =>
    simp only [notifySubscriptions, notifyAttempts_append, ih, List.enumFrom, List.map_cons]
    split <;> simp [notifyAttempts]

theorem anyChanged_iff (heap : Heap) (attributes : List StringAttribute) :
    anyChanged heap attributes = true ↔
      ∃ a ∈ attributes, a.lastAttributeValue ≠ heap a.attributeValue := by
  unfold anyChanged
  simp [List.any_eq_true]

theorem handleAttributeChange_settled (sendRequest : Nat → Int) (self : ESP8266UPnP)
    (heap : Heap)
    (h : ∀ a ∈ self._stringAttributes, a.lastAttributeValue = heap a.attributeValue) :
    self.handleAttributeChange sendRequest heap =
      { engine := self, heap := heap, effects := [], faulted := false } := by
  unfold ESP8266UPnP.handleAttributeChange
  simp only []
  rw [detectChanges_fixed heap _ h]
  rfl

/-- Claim C7. After one `handleAttributeChange` pass every attribute's `lastAttributeValue`
equals the content of its cell; a second pass, run while every registered cell still holds
the content it had during the first, has no effect at all (no change is traced and no NOTIFY
is sent, whatever the subscribers) and leaves the engine, hence every `lastAttributeValue`,
unchanged. -/
theorem change_detection_settles (send1 send2 : Nat → Int) (self : ESP8266UPnP)
    (heap heap2 : Heap)
    (hsame : ∀ a ∈ self._stringAttributes, heap2 a.attributeValue = heap a.attributeValue) :
    (∀ a ∈ (self.handleAttributeChange send1 heap).engine._stringAttributes,
      a.lastAttributeValue = heap a.attributeValue) ∧
    ((self.handleAttributeChange send1 heap).engine.handleAttributeChange send2 heap2).effects
      = [] ∧
    ((self.handleAttributeChange send1 heap).engine.handleAttributeChange send2 heap2).engine
      = (self.handleAttributeChange send1 heap).engine := by
  have hattrs : (self.handleAttributeChange send1 heap).engine._stringAttributes =
      (detectChanges heap self._stringAttributes).1 := by
    unfold ESP8266UPnP.handleAttributeChange
    simp only []
    split <;> rfl
  have hsettled : ∀ a ∈ (self.handleAttributeChange send1 heap).engine._stringAttributes,
      a.lastAttributeValue = heap2 a.attributeValue := by
    intro a ha
    rw [hattrs] at ha
    obtain ⟨h1, b, hb, h2⟩ := detectChanges_settled heap _ a ha
    rw [h1, ← h2, hsame b hb]
  have hsecond := handleAttributeChange_settled send2
    (self.handleAttributeChange send1 heap).engine heap2 hsettled
  refine ⟨?_, ?_, ?_⟩
  · intro a ha
    rw [hattrs] at ha
    exact (detectChanges_settled heap _ a ha).1
  · rw [hsecond]
  · rw [hsecond]

set_option maxRecDepth 100000 in
/-- Witness for claim C7: `power` is registered while its cell holds `off`; the cell is then
set to `on`. The first pass traces the change and stores `on`; the second pass does
nothing. -/
theorem change_detection_settles_witness :
    powerEngine._stringAttributes.map (fun a => a.lastAttributeValue) = ["off"] ∧
    (powerEngine.handleAttributeChange firstDeliveryFails sampleHeap).effects =
      [Effect.logTrace "Found change in attribute %s.  Old value: %s, new value: %s\n"] ∧
    (powerEngine.handleAttributeChange firstDeliveryFails sampleHeap).engine._stringAttributes =
      [{ attributeName := "power", attributeValue := 0, lastAttributeValue := "on" }] ∧
    ((powerEngine.handleAttributeChange firstDeliveryFails sampleHeap).engine.handleAttributeChange
      firstDeliveryFails sampleHeap).effects = [] :=
  ⟨by decide, by decide, by decide,
   (change_detection_settles firstDeliveryFails firstDeliveryFails powerEngine sampleHeap
      sampleHeap (fun _ _ => rfl)).2.1⟩

/-- Claim C8. For every attribute registry, subscription list and assignment of delivery
outcomes: when some attribute's cell differs from its `lastAttributeValue`, the NOTIFY
attempts of `handleAttributeChange` are exactly one per subscription, in list order, each to
that subscription's `callbackUrl`, each carrying the one property-set document of the current
cells, whatever status the earlier deliveries returned; when no attribute differs there is no
attempt; and the subscription list is never changed. -/
theorem notify_fan_out (sendRequest : Nat → Int) (self : ESP8266UPnP) (heap : Heap) :
    ((∃ a ∈ self._stringAttributes, a.lastAttributeValue ≠ heap a.attributeValue) →
      notifyAttempts (self.handleAttributeChange sendRequest heap).effects =
        self._subscriptions.enum.map
          (fun p => (p.2.callbackUrl, self._getPropertySet heap, sendRequest p.1))) ∧
    ((∀ a ∈ self._stringAttributes, a.lastAttributeValue = heap a.attributeValue) →
      notifyAttempts (self.handleAttributeChange sendRequest heap).effects = []) ∧
    (self.handleAttributeChange sendRequest heap).engine._subscriptions = self._subscriptions ∧
    (self.handleAttributeChange sendRequest heap).faulted = false := by
  have hdoc : ({ self with _stringAttributes := (detectChanges heap self._stringAttributes).1 }
      : ESP8266UPnP)._getPropertySet heap = self._getPropertySet heap := by
    rw [getPropertySet_eq, getPropertySet_eq]
    simp only [detectChanges_blocks]
  refine ⟨?_, ?_, ?_, ?_⟩
  · intro hchg
    have hfound := (anyChanged_iff heap _).mpr hchg
    rw [← detectChanges_found] at hfound
    unfold ESP8266UPnP.handleAttributeChange
    simp only [hfound, if_true]
    rw [notifyAttempts_append, detectChanges_logs_only, notifySubscriptions_attempts, hdoc]
    rfl
  · intro hsame
    unfold ESP8266UPnP.handleAttributeChange
    simp only []
    rw [detectChanges_fixed heap _ hsame]
    rfl
  · unfold ESP8266UPnP.handleAttributeChange
    simp only []
    split <;> rfl
  · unfold ESP8266UPnP.handleAttributeChange
    simp only []
    split <;> rfl

set_option maxRecDepth 100000 in
/-- Witness for claim C8: two subscribers, `power` changed from `off` to `on`, the first
delivery returns 500; both NOTIFYs are attempted with the same document, the failure is
logged, and both subscriptions remain. -/
theorem notify_fan_out_witness :
    notifyAttempts (twoSubscriberEngine.handleAttributeChange firstDeliveryFails sampleHeap).effects
      = [("http://a/cb", twoSubscriberEngine._getPropertySet sampleHeap, 500),
         ("http://b/cb", twoSubscriberEngine._getPropertySet sampleHeap, 200)] ∧
    (twoSubscriberEngine.handleAttributeChange firstDeliveryFails sampleHeap).engine._subscriptions
      = [{ callbackUrl := "http://a/cb", sid := "uuid-a" },
         { callbackUrl := "http://b/cb", sid := "uuid-b" }] :=
  ⟨((notify_fan_out firstDeliveryFails twoSubscriberEngine sampleHeap).1
      ⟨{ attributeName := "power", attributeValue := 0, lastAttributeValue := "off" },
        by decide, by decide⟩).trans (by decide),
   by decide⟩

/-! ## Control response -/

/-- The response of every processed control request is `soapResponse` of the parsed action
name and service type, whose `Response` element always holds the fixed child
`<argumentName>out arg value</argumentName>`. -/
theorem processed_response_body (Parse : String → XMLDocument) (self : ESP8266UPnP)
    (heap : Heap) (millis : Nat) (req : WebRequest) (root body : XMLNode)
    (tag : String) (attributes : List (String × String)) (children : List XMLNode)
    (haccept : ¬ (self._lastActionTime + self._actionDebounceTime) % ULONG_RANGE > millis)
    (hroot : (Parse (req.argName0 ++ "=" ++ req.arg0)).RootElement = some root)
    (hbody : root.FirstChild = some body)
    (haction : body.FirstChild = some (XMLNode.element tag attributes children)) :
    sentBodies (self._onHttpSoapMessage Parse heap millis req).effects =
      [soapResponse (substringFrom tag (toUnsigned (indexOf tag ':' + 1)))
        (stringOfCStr (Attribute attributes
          ("xmlns:" ++ substring tag 0 (toUnsigned (indexOf tag ':')))))] := by
  rw [onHttpSoapMessage_processed Parse self heap millis req root body tag attributes children
    haccept hroot hbody haction]
  have happ : ∀ xs ys : List Effect, sentBodies (xs ++ ys) = sentBodies xs ++ sentBodies ys := by
    intro xs ys
    induction xs with
    | nil => rfl
    | cons e tl ih => cases e <;> simp [sentBodies, ih]
  have hdisp : ∀ (A : String) (actions : List ZeroArgAction) (i : Nat) (h : Heap),
      sentBodies (dispatchZeroArg A actions i h).2 = [] := by
    intro A actions
    induction actions with
    | nil => intro i h; rfl
    | cons a tl ih =>
      intro i h
      by_cases ha : a.actionName = A
      · simp [dispatchZeroArg, ha, ih, sentBodies]
      · simp [dispatchZeroArg, ha, ih]
  simp only [happ, hdisp]
  split <;> simp [sentBodies]

set_option maxRecDepth 100000 in
/-- Claim C10, evaluated on the code. The processed `TurnOn` request, dispatched through the
zero-argument handlers, is answered with an envelope whose `u:TurnOnResponse` element holds
the child element `<argumentName>out arg value</argumentName>`. -/
theorem response_holds_placeholder_argument :
    sentBodies (sampleEngine._onHttpSoapMessage sampleParse emptyHeap 6000 turnOnRequest).effects =
      ["<?xml version=\"1.0\"?>\n" ++
       "<s:Envelope xmlns:s=\"http://schemas.xmlsoap.org/soap/envelope/\" " ++
       "s:encodingStyle=\"http://schemas.xmlsoap.org/soap/encoding/\">\n" ++
       "  <s:Body>\n" ++
       "    <u:TurnOnResponse xmlns:u=\"urn:schemas-upnp-org:service:SwitchPower:1\">\n" ++
       "      <argumentName>out arg value</argumentName>\n" ++
       "    </u:TurnOnResponse>\n" ++
       "  </s:Body>\n" ++
       "</s:Envelope>\n"] := by
  decide

/-! ## Debounce on a fresh engine -/

/-- On a freshly constructed engine every control request read before clock reading 5000 is
answered 429 and leaves the engine as constructed, whatever its body. -/
theorem fresh_engine_rejects_before_window (Parse : String → XMLDocument) (heap : Heap)
    (millis : Nat) (req : WebRequest) (h : millis < 5000) :
    ESP8266UPnP.construct._onHttpSoapMessage Parse heap millis req =
      { engine := ESP8266UPnP.construct, heap := heap,
        effects := [Effect.logError "Debouncing Soap Control Message\n",
                    Effect.sendHeader "Server" serverBanner,
                    Effect.send 429 xmlContentType "<error>Too Many Requests</error>"],
        faulted := false } := by
  unfold ESP8266UPnP._onHttpSoapMessage
  have hgt : (ESP8266UPnP.construct._lastActionTime + ESP8266UPnP.construct._actionDebounceTime)
      % ULONG_RANGE > millis := by
    show (0 + 5000) % 4294967296 > millis
    omega
  rw [if_pos hgt]

/-! ## Debounce: rejected and accepted requests -/

theorem sentCodes_dispatchZeroArg (A : String) (actions : List ZeroArgAction) (i : Nat)
    (heap : Heap) : sentCodes (dispatchZeroArg A actions i heap).2 = [] := by
  induction actions generalizing i heap with
  | nil => rfl
  | cons a tl ih =>
    by_cases h : a.actionName = A
    · simp [dispatchZeroArg, h, ih, sentCodes]
    · simp [dispatchZeroArg, h, ih]

/-- A request that fails the debounce test gets the 429 response and nothing else happens. -/
theorem onHttpSoapMessage_rejected (Parse : String → XMLDocument) (self : ESP8266UPnP)
    (heap : Heap) (millis : Nat) (req : WebRequest)
    (hrej : (self._lastActionTime + self._actionDebounceTime) % ULONG_RANGE > millis) :
    self._onHttpSoapMessage Parse heap millis req =
      { engine := self, heap := heap,
        effects := [Effect.logError "Debouncing Soap Control Message\n",
                    Effect.sendHeader "Server" serverBanner,
                    Effect.send 429 xmlContentType "<error>Too Many Requests</error>"],
        faulted := false } := by
  unfold ESP8266UPnP._onHttpSoapMessage
  rw [if_pos hrej]

/-- A request that passes the debounce test leaves an engine that differs from the one
before only in `_lastActionTime`, which is the clock reading; it sends at most the 200
response. -/
theorem onHttpSoapMessage_accepted (Parse : String → XMLDocument) (self : ESP8266UPnP)
    (heap : Heap) (millis : Nat) (req : WebRequest)
    (haccept : ¬ (self._lastActionTime + self._actionDebounceTime) % ULONG_RANGE > millis) :
    (self._onHttpSoapMessage Parse heap millis req).engine =
      { self with _lastActionTime := millis } ∧
    (sentCodes (self._onHttpSoapMessage Parse heap millis req).effects = [] ∨
     sentCodes (self._onHttpSoapMessage Parse heap millis req).effects = [200]) := by
  unfold ESP8266UPnP._onHttpSoapMessage
  rw [if_neg haccept]
  simp only []
  have hlog : sentCodes ([Effect.logTrace "Processing SOAP Control Message: %s\n"] ++
      (if (Parse (req.argName0 ++ "=" ++ req.arg0)).errorID ≠ 0
        then [Effect.logError "Error Pasing XML: %d\n%s"] else [])) = [] := by
    split <;> rfl
  cases (Parse (req.argName0 ++ "=" ++ req.arg0)).RootElement with
  | none => exact ⟨rfl, Or.inl hlog⟩
  | some root =>
    dsimp only
    cases root.FirstChild with
    | none => exact ⟨rfl, Or.inl hlog⟩
    | some body =>
      dsimp only
      cases body.FirstChild with
      | none => exact ⟨rfl, Or.inl hlog⟩
      | some actionNode =>
        dsimp only
        cases actionNode.ToElement with
        | none => exact ⟨rfl, Or.inl hlog⟩
        | some attributes =>
          dsimp only
          refine ⟨rfl, Or.inr ?_⟩
          simp only [sentCodes_append, hlog, sentCodes_dispatchZeroArg, if_true]
          rfl

theorem sentBodies_rejection :
    sentBodies [Effect.logError "Debouncing Soap Control Message\n",
      Effect.sendHeader "Server" serverBanner,
      Effect.send 429 xmlContentType "<error>Too Many Requests</error>"] =
      ["<error>Too Many Requests</error>"] := rfl

/-- The part of the debounce behaviour that holds on the code. Let `r` be the outcome of a
control request read at clock reading `millis`. When `millis` is below the `unsigned long`
sum `_lastActionTime + _actionDebounceTime` that the code computes (the plain sum whenever
that is below `2^32`), the request is answered with status 429 and body
`<error>Too Many Requests</error>`, no handler is invoked, and the engine and the host memory
are unchanged. When `millis` equals the plain sum exactly, no 429 is sent and
`_lastActionTime` becomes `millis`. -/
theorem debounce_rejection_is_inert (Parse : String → XMLDocument) (self : ESP8266UPnP)
    (heap : Heap) (millis : Nat) (req : WebRequest) (r : Result)
    (hr : r = self._onHttpSoapMessage Parse heap millis req) :
    (millis < (self._lastActionTime + self._actionDebounceTime) % ULONG_RANGE →
      sentCodes r.effects = [429] ∧ sentBodies r.effects = ["<error>Too Many Requests</error>"] ∧
      sentHeaders r.effects = [("Server", serverBanner)] ∧
      handlerCalls r.effects = [] ∧ r.engine = self ∧ r.heap = heap ∧ r.faulted = false) ∧
    (self._lastActionTime + self._actionDebounceTime < ULONG_RANGE →
      millis < self._lastActionTime + self._actionDebounceTime →
      sentCodes r.effects = [429] ∧ sentBodies r.effects = ["<error>Too Many Requests</error>"] ∧
      handlerCalls r.effects = [] ∧ r.engine = self ∧ r.heap = heap) ∧
    (millis < ULONG_RANGE → millis = self._lastActionTime + self._actionDebounceTime →
      429 ∉ sentCodes r.effects ∧ r.engine._lastActionTime = millis) := by
  subst hr
  refine ⟨?_, ?_, ?_⟩
  · intro hrej
    rw [onHttpSoapMessage_rejected Parse self heap millis req hrej]
    exact ⟨rfl, rfl, rfl, rfl, rfl, rfl, rfl⟩
  · intro hfit hlt
    have hrej : (self._lastActionTime + self._actionDebounceTime) % ULONG_RANGE > millis := by
      rw [Nat.mod_eq_of_lt hfit]; exact hlt
    rw [onHttpSoapMessage_rejected Parse self heap millis req hrej]
    exact ⟨rfl, rfl, rfl, rfl, rfl⟩
  · intro hfit heq
    have haccept : ¬ (self._lastActionTime + self._actionDebounceTime) % ULONG_RANGE > millis := by
      rw [← heq, Nat.mod_eq_of_lt hfit]; exact Nat.lt_irrefl _
    obtain ⟨heng, hcodes⟩ := onHttpSoapMessage_accepted Parse self heap millis req haccept
    refine ⟨?_, ?_⟩
    · rcases hcodes with h | h <;> rw [h] <;> decide
    · rw [heng]

set_option maxRecDepth 100000 in
/-- An instance of `debounce_rejection_is_inert`: the engine that processed a request at
reading 6000 (window 5000) rejects a request at 10999 and stays as it was, and takes a request
at exactly 11000. -/
theorem debounce_rejection_witness :
    busyEngine._lastActionTime = 6000 ∧
    (sentCodes (busyEngine._onHttpSoapMessage sampleParse emptyHeap 10999 turnOnRequest).effects
        = [429] ∧
      (busyEngine._onHttpSoapMessage sampleParse emptyHeap 10999 turnOnRequest).engine
        = busyEngine) ∧
    (429 ∉ sentCodes
        (busyEngine._onHttpSoapMessage sampleParse emptyHeap 11000 turnOnRequest).effects ∧
      (busyEngine._onHttpSoapMessage sampleParse emptyHeap 11000 turnOnRequest).engine._lastActionTime
        = 11000) ∧
    sentCodes (busyEngine._onHttpSoapMessage sampleParse emptyHeap 11000 turnOnRequest).effects
      = [200] :=
  ⟨by decide,
   (fun h => ⟨h.1, h.2.2.2.2.1⟩)
     ((debounce_rejection_is_inert sampleParse busyEngine emptyHeap 10999 turnOnRequest _ rfl).1
       (by decide)),
   (debounce_rejection_is_inert sampleParse busyEngine emptyHeap 11000 turnOnRequest _ rfl).2.2
     (by decide) (by decide),
   by decide⟩

/-- The part of the window accounting that holds on the code. A control request that passes
the debounce test at clock reading `millis` leaves `_lastActionTime` equal to `millis` and
the window unchanged in the state it reaches. A further request on that state at a reading
`t` with `millis ≤ t < millis + window` is answered 429 and changes nothing, provided the sum
is below `2^32` (or, in general, when `t` is below the `unsigned long` sum the code
computes). -/
theorem accepted_request_counts_against_window (Parse Parse2 : String → XMLDocument)
    (self : ESP8266UPnP) (heap heap2 : Heap) (millis t : Nat) (req req2 : WebRequest)
    (r : Result) (hr : r = self._onHttpSoapMessage Parse heap millis req)
    (haccept : ¬ (self._lastActionTime + self._actionDebounceTime) % ULONG_RANGE > millis) :
    r.engine._lastActionTime = millis ∧
    r.engine._actionDebounceTime = self._actionDebounceTime ∧
    (millis ≤ t → t < millis + self._actionDebounceTime →
      millis + self._actionDebounceTime < ULONG_RANGE →
      sentCodes (r.engine._onHttpSoapMessage Parse2 heap2 t req2).effects = [429] ∧
      (r.engine._onHttpSoapMessage Parse2 heap2 t req2).engine = r.engine) ∧
    (t < (millis + self._actionDebounceTime) % ULONG_RANGE →
      sentCodes (r.engine._onHttpSoapMessage Parse2 heap2 t req2).effects = [429] ∧
      (r.engine._onHttpSoapMessage Parse2 heap2 t req2).engine = r.engine) := by
  subst hr
  obtain ⟨heng, _⟩ := onHttpSoapMessage_accepted Parse self heap millis req haccept
  have hmachine : t < (millis + self._actionDebounceTime) % ULONG_RANGE →
      sentCodes ((self._onHttpSoapMessage Parse heap millis req).engine._onHttpSoapMessage
        Parse2 heap2 t req2).effects = [429] ∧
      ((self._onHttpSoapMessage Parse heap millis req).engine._onHttpSoapMessage
        Parse2 heap2 t req2).engine = (self._onHttpSoapMessage Parse heap millis req).engine := by
    intro hlt
    have hrej : ((self._onHttpSoapMessage Parse heap millis req).engine._lastActionTime +
        (self._onHttpSoapMessage Parse heap millis req).engine._actionDebounceTime)
        % ULONG_RANGE > t := by
      rw [heng]; exact hlt
    rw [onHttpSoapMessage_rejected Parse2 _ heap2 t req2 hrej]
    exact ⟨rfl, rfl⟩
  refine ⟨by rw [heng], by rw [heng], ?_, hmachine⟩
  intro _ hlt hfit
  apply hmachine
  rw [Nat.mod_eq_of_lt hfit]
  exact hlt

set_option maxRecDepth 100000 in
/-- Claim C17, evaluated on the code. A fresh engine processes a request at reading
`2^32 - 1000`. A second request 500 ms later, at `2^32 - 500`, has elapsed time 500, below
the window 5000, yet it is processed too (status 200): the `unsigned long` sum
`_lastActionTime + _actionDebounceTime` wrapped to 4000, which is not above the reading. -/
theorem debounce_fails_before_wraparound :
    (controlSequence sampleParse ESP8266UPnP.construct emptyHeap
      [(nearWrap, turnOnRequest), (nearWrap + 500, turnOnRequest)]).map
      (fun r => (sentCodes r.effects, r.engine._lastActionTime)) =
      [([200], 4294966296), ([200], 4294966796)] ∧
    (nearWrap + 500 + ULONG_RANGE - nearWrap) % ULONG_RANGE = 500 ∧
    (nearWrap + ESP8266UPnP.construct._actionDebounceTime) % ULONG_RANGE = 4000 ∧
    nearWrap + 500 < ULONG_RANGE := by
  decide

set_option maxRecDepth 100000 in
/-- Claim C11, evaluated on the code. The engine `wrapEngine` processed a request at reading
`2^32 - 1000`, so `_lastActionTime` is `2^32 - 1000` and the window is 5000. A control request
read at `2^32 - 500` satisfies `now < _lastActionTime + _actionDebounceTime`, yet it is not
rejected: it is answered 200, the handlers registered under `TurnOn` (registrations `0` and
`2`) are invoked and write host memory, and `_lastActionTime` is rewritten to `2^32 - 500`.
The `unsigned long` sum wrapped to 4000, which is not above the reading. -/
theorem rejection_missed_when_sum_overflows :
    wrapEngine._lastActionTime = 4294966296 ∧
    wrapEngine._actionDebounceTime = 5000 ∧
    nearWrap + 500 < wrapEngine._lastActionTime + wrapEngine._actionDebounceTime ∧
    nearWrap + 500 < ULONG_RANGE ∧
    sentCodes (wrapEngine._onHttpSoapMessage sampleParse emptyHeap (nearWrap + 500)
      turnOnRequest).effects = [200] ∧
    handlerCalls (wrapEngine._onHttpSoapMessage sampleParse emptyHeap (nearWrap + 500)
      turnOnRequest).effects = [Effect.call0 0, Effect.call0 2] ∧
    (wrapEngine._onHttpSoapMessage sampleParse emptyHeap (nearWrap + 500)
      turnOnRequest).heap 7 = "called" ∧
    (wrapEngine._onHttpSoapMessage sampleParse emptyHeap (nearWrap + 500)
      turnOnRequest).engine._lastActionTime = 4294966796 := by
  decide

set_option maxRecDepth 100000 in
/-- Claim C14, evaluated on the code. First run: the sample engine accepts a well-formed
request at reading `2^32 - 1000`, which sets `_lastActionTime` to that reading; the following
request at `t = 2^32 - 500`, with `now ≤ t < now + 5000`, is answered 200 instead of 429,
because the `unsigned long` sum wrapped. Second run: the sample engine accepts the body
`hello=world` at reading 6000; the handler faults at the null root element, so the run ends
there with nothing sent and the following request at 7000 is never answered. -/
theorem accepted_request_not_counted_when_sum_overflows :
    (controlSequence sampleParse sampleEngine emptyHeap
      [(nearWrap, turnOnRequest), (nearWrap + 500, setTargetRequest)]).map
      (fun r => (sentCodes r.effects, r.engine._lastActionTime, r.faulted)) =
      [([200], 4294966296, false), ([200], 4294966796, false)] ∧
    nearWrap ≤ nearWrap + 500 ∧
    nearWrap + 500 < nearWrap + sampleEngine._actionDebounceTime ∧
    nearWrap + 500 < ULONG_RANGE ∧
    (controlSequence sampleParse sampleEngine emptyHeap
      [(6000, garbageRequest), (7000, turnOnRequest)]).map
      (fun r => (sentCodes r.effects, r.faulted)) = [([], true)] := by
  decide

/-! ## Action tag splitting -/

theorem split_at_first (c : Char) (l : List Char) (h : c ∈ l) :
    ∃ pre post, l = pre ++ c :: post ∧ c ∉ pre := by
  induction l with
  | nil => simp at h
  | cons d tl ih =>
    by_cases hd : d = c
    · exact ⟨[], tl, by rw [hd]; rfl, by simp⟩
    · have htl : c ∈ tl := by
        rcases List.mem_cons.mp h with h1 | h1
        · exact absurd h1.symm hd
        · exact h1
      obtain ⟨pre, post, heq, hpre⟩ := ih htl
      refine ⟨d :: pre, post, by rw [heq]; rfl, ?_⟩
      intro hmem
      rcases List.mem_cons.mp hmem with h1 | h1
      · exact hd h1.symm
      · exact hpre h1

theorem tag_decomposition (t : String) (h : ':' ∈ t.data) :
    ∃ ns A : String, t = ns ++ ":" ++ A ∧ ':' ∉ ns.data := by
  obtain ⟨pre, post, heq, hpre⟩ := split_at_first ':' t.data h
  refine ⟨String.mk pre, String.mk post, ?_, hpre⟩
  apply String.ext
  rw [tag_data, heq]

set_option maxRecDepth 100000 in
theorem setColonTargetRequest_body :
    setColonTargetRequest.argName0 ++ "=" ++ setColonTargetRequest.arg0 = setColonTargetBody := by
  decide

/-- Claim C12. For a processed control request whose action element has a tag `t` holding at
least one `:`, let `ns` and `name` be the namespace and action name the code computes with
`indexOf` and `substring`. Then `ns ++ ":" ++ name = t`, `ns` holds no `:`, and `ns`, `name`
are the parts before and after the first `:` (they agree with every decomposition of `t`
whose first part is colon-free, so later colons stay in `name`). The service type written
into the response is the value of the attribute named `"xmlns:" ++ ns` of the action
element. -/
theorem action_tag_splits_at_first_colon (Parse : String → XMLDocument) (self : ESP8266UPnP)
    (heap : Heap) (millis : Nat) (req : WebRequest) (root body : XMLNode)
    (t ns name : String) (attributes : List (String × String)) (children : List XMLNode)
    (haccept : ¬ (self._lastActionTime + self._actionDebounceTime) % ULONG_RANGE > millis)
    (hroot : (Parse (req.argName0 ++ "=" ++ req.arg0)).RootElement = some root)
    (hbody : root.FirstChild = some body)
    (haction : body.FirstChild = some (XMLNode.element t attributes children))
    (hcolon : ':' ∈ t.data)
    (hns : ns = substring t 0 (toUnsigned (indexOf t ':')))
    (hname : name = substringFrom t (toUnsigned (indexOf t ':' + 1))) :
    ns ++ ":" ++ name = t ∧ ':' ∉ ns.data ∧
    (∀ ns2 A2 : String, t = ns2 ++ ":" ++ A2 → ':' ∉ ns2.data → ns = ns2 ∧ name = A2) ∧
    (∀ S, Attribute attributes ("xmlns:" ++ ns) = some S →
      sentBodies (self._onHttpSoapMessage Parse heap millis req).effects =
        [soapResponse name S]) := by
  have huniq : ∀ ns2 A2 : String, t = ns2 ++ ":" ++ A2 → ':' ∉ ns2.data →
      ns = ns2 ∧ name = A2 := by
    intro ns2 A2 ht hfree
    rw [hns, hname, ht]
    exact ⟨actionNs_of_tag ns2 A2 hfree, actionName_of_tag ns2 A2 hfree⟩
  obtain ⟨ns0, A0, ht0, hfree0⟩ := tag_decomposition t hcolon
  obtain ⟨e1, e2⟩ := huniq ns0 A0 ht0 hfree0
  refine ⟨by rw [e1, e2, ← ht0], by rw [e1]; exact hfree0, huniq, ?_⟩
  intro S hS
  rw [processed_response_body Parse self heap millis req root body t attributes children
    haccept hroot hbody haction, ← hns, ← hname, hS]
  rfl

set_option maxRecDepth 100000 in
/-- Witness for claim C12: the tag `u:Set:Target` is split into namespace `u` and action
name `Set:Target`, and the response names the service type held by `xmlns:u`. -/
theorem action_tag_split_witness :
    substring "u:Set:Target" 0 (toUnsigned (indexOf "u:Set:Target" ':')) = "u" ∧
    substringFrom "u:Set:Target" (toUnsigned (indexOf "u:Set:Target" ':' + 1)) = "Set:Target" ∧
    sentBodies
      (sampleEngine._onHttpSoapMessage colonParse emptyHeap 6000 setColonTargetRequest).effects =
      [soapResponse "Set:Target" sampleServiceType] :=
  ⟨by decide, by decide,
   (action_tag_splits_at_first_colon colonParse sampleEngine emptyHeap 6000 setColonTargetRequest
      (XMLNode.element "s:Envelope" [("xmlns:s", "http://schemas.xmlsoap.org/soap/envelope/")]
         [XMLNode.element "s:Body" []
           [XMLNode.element "u:Set:Target" [("xmlns:u", sampleServiceType)] []]])
      (XMLNode.element "s:Body" []
        [XMLNode.element "u:Set:Target" [("xmlns:u", sampleServiceType)] []])
      "u:Set:Target" "u" "Set:Target" [("xmlns:u", sampleServiceType)] []
      (by decide)
      (by rw [setColonTargetRequest_body]; rfl)
      rfl rfl (by decide) (by decide) (by decide)).2.2.2 sampleServiceType (by decide)⟩

/-! ## Frame of the attribute snapshots -/

theorem detectChanges_map (heap : Heap) (attributes : List StringAttribute) :
    (detectChanges heap attributes).1 =
      attributes.map (fun a =>
        if a.lastAttributeValue ≠ heap a.attributeValue
          then { a with lastAttributeValue := heap a.attributeValue } else a) := by
  induction attributes with
  | nil => rfl
  | cons b tl ih =>
    by_cases hb : b.lastAttributeValue = heap b.attributeValue
    · simp [detectChanges, hb, ih]
    · simp [detectChanges, hb, ih]

theorem handleAttributeChange_attributes (sendRequest : Nat → Int) (self : ESP8266UPnP)
    (heap : Heap) :
    (self.handleAttributeChange sendRequest heap).engine._stringAttributes =
      (detectChanges heap self._stringAttributes).1 := by
  unfold ESP8266UPnP.handleAttributeChange
  simp only []
  split <;> rfl

theorem onSubscribe_attributes (uuidStr : String) (self : ESP8266UPnP) (heap : Heap)
    (req : WebRequest) :
    (self.onSubscribe uuidStr heap req).engine._stringAttributes = self._stringAttributes := by
  unfold ESP8266UPnP.onSubscribe
  simp only []
  split <;> rfl

theorem onHttpSoapMessage_attributes (Parse : String → XMLDocument) (self : ESP8266UPnP)
    (heap : Heap) (millis : Nat) (req : WebRequest) :
    (self._onHttpSoapMessage Parse heap millis req).engine._stringAttributes =
      self._stringAttributes := by
  by_cases h : (self._lastActionTime + self._actionDebounceTime) % ULONG_RANGE > millis
  · rw [onHttpSoapMessage_rejected Parse self heap millis req h]
  · rw [(onHttpSoapMessage_accepted Parse self heap millis req h).1]

/-- Claim C13. A `handleAttributeChange` pass maps the attribute list entry by entry: an
entry whose cell differs from its `lastAttributeValue` gets the cell content as its new
`lastAttributeValue`, every other entry is kept as it is, and names, cell addresses, length
and order are preserved. `registerAttribute` appends one entry whose `lastAttributeValue` is
the content of the cell at registration and keeps the earlier entries. The `/upnp/attributes`
handler, the `/upnp/subscribe` handler and the control handler leave the attribute list, hence
every `lastAttributeValue`, unchanged. -/
theorem last_attribute_value_written_only_by_change_detection
    (Parse : String → XMLDocument) (sendRequest : Nat → Int) (self : ESP8266UPnP)
    (heap : Heap) (millis : Nat) (req : WebRequest) (uuidStr attributeName : String)
    (attributeValue : Nat) :
    (self.handleAttributeChange sendRequest heap).engine._stringAttributes =
      self._stringAttributes.map (fun a =>
        if a.lastAttributeValue ≠ heap a.attributeValue
          then { attributeName := a.attributeName, attributeValue := a.attributeValue,
                 lastAttributeValue := heap a.attributeValue }
          else a) ∧
    (self.handleAttributeChange sendRequest heap).engine._stringAttributes.map
        (fun a => (a.attributeName, a.attributeValue)) =
      self._stringAttributes.map (fun a => (a.attributeName, a.attributeValue)) ∧
    (self.registerAttribute heap attributeName attributeValue)._stringAttributes =
      self._stringAttributes ++
        [{ attributeName := attributeName, attributeValue := attributeValue,
           lastAttributeValue := heap attributeValue }] ∧
    (self.onAttributes heap).engine._stringAttributes = self._stringAttributes ∧
    (self.onSubscribe uuidStr heap req).engine._stringAttributes = self._stringAttributes ∧
    (self._onHttpSoapMessage Parse heap millis req).engine._stringAttributes =
      self._stringAttributes := by
  refine ⟨?_, ?_, rfl, rfl, onSubscribe_attributes uuidStr self heap req,
    onHttpSoapMessage_attributes Parse self heap millis req⟩
  · rw [handleAttributeChange_attributes, detectChanges_map]
  · rw [handleAttributeChange_attributes, detectChanges_map, List.map_map]
    apply List.map_congr_left
    intro a _
    by_cases ha : a.lastAttributeValue = heap a.attributeValue
    · simp [ha]
    · simp [ha]

set_option maxRecDepth 100000 in
/-- The example of claim C13: with `power` registered at `off` and `brightness` registered at
`50`, and the cell of `power` now holding `on`, a pass rewrites the snapshot of `power` only. -/
theorem change_detection_rewrites_changed_entries_only :
    ((powerEngine.registerAttribute sampleHeap "brightness" 1).handleAttributeChange
      firstDeliveryFails sampleHeap).engine._stringAttributes =
      [{ attributeName := "power", attributeValue := 0, lastAttributeValue := "on" },
       { attributeName := "brightness", attributeValue := 1, lastAttributeValue := "50" }] ∧
    (powerEngine.registerAttribute sampleHeap "brightness" 1)._stringAttributes =
      [{ attributeName := "power", attributeValue := 0, lastAttributeValue := "off" },
       { attributeName := "brightness", attributeValue := 1, lastAttributeValue := "50" }] := by
  decide

/-! ## Attributes poll -/

/-- Claim C15. For every engine state (any `_lastActionTime`, any `lastAttributeValue`
contents; the handler reads no clock) a request to `/upnp/attributes` is answered with the
`Server` header and status 200, type `text/xml; charset="utf-8"`, and a body equal to
`_getPropertySet` of the current cells, that is one block per registered attribute; it leaves
the engine and the host memory unchanged, so the next `handleAttributeChange` behaves as it
would have without the poll. -/
theorem attributes_poll_is_read_only (sendRequest : Nat → Int) (self : ESP8266UPnP)
    (heap : Heap) :
    (self.onAttributes heap).effects =
      [Effect.sendHeader "Server" serverBanner,
       Effect.send 200 xmlContentType (self._getPropertySet heap)] ∧
    sentCodes (self.onAttributes heap).effects = [200] ∧
    sentBodies (self.onAttributes heap).effects =
      ["<?xml version=\"1.0\"?>\n" ++
       "<e:propertyset xmlns:e=\"urn:schemas-upnp-org:event-1-0\">\n" ++
       String.join (propertyBlocks heap self._stringAttributes) ++
       "</e:propertyset>"] ∧
    (self.onAttributes heap).engine = self ∧
    (self.onAttributes heap).heap = heap ∧
    (self.onAttributes heap).faulted = false ∧
    (self.onAttributes heap).engine.handleAttributeChange sendRequest (self.onAttributes heap).heap
      = self.handleAttributeChange sendRequest heap := by
  refine ⟨rfl, rfl, ?_, rfl, rfl, rfl, rfl⟩
  show [self._getPropertySet heap] = _
  rw [getPropertySet_eq]

set_option maxRecDepth 100000 in
/-- The example of claim C15: an engine inside its debounce window, with a pending change of
`power` from `off` to `on`, answers the poll with the current value, and the change is still
detected afterwards. -/
theorem attributes_poll_keeps_pending_change :
    sentCodes (({ powerEngine with _lastActionTime := 6000 } : ESP8266UPnP).onAttributes
      sampleHeap).effects = [200] ∧
    sentBodies (({ powerEngine with _lastActionTime := 6000 } : ESP8266UPnP).onAttributes
      sampleHeap).effects =
      ["<?xml version=\"1.0\"?>\n<e:propertyset xmlns:e=\"urn:schemas-upnp-org:event-1-0\">\n" ++
       "  <e:property>\n    <power>on</power>\n  </e:property>\n</e:propertyset>"] ∧
    ((({ powerEngine with _lastActionTime := 6000 } : ESP8266UPnP).onAttributes
      sampleHeap).engine.handleAttributeChange firstDeliveryFails sampleHeap).effects =
      [Effect.logTrace "Found change in attribute %s.  Old value: %s, new value: %s\n"] := by
  decide

/-! ## Callback URL normalisation -/

theorem normaliseCallback_data (callback : String) :
    (normaliseCallback callback).data =
      callback.data.filter (fun d => d != '<' && d != '>') := by
  show List.filter (fun d => d != '<') (List.filter (fun d => d != '>') callback.data) = _
  rw [List.filter_filter]

theorem normaliseCallback_no_brackets (callback : String) :
    '<' ∉ (normaliseCallback callback).data ∧ '>' ∉ (normaliseCallback callback).data := by
  rw [normaliseCallback_data]
  constructor <;> · intro h; simp [List.mem_filter] at h

theorem normaliseCallback_idempotent (callback : String) :
    normaliseCallback (normaliseCallback callback) = normaliseCallback callback := by
  apply String.ext
  rw [normaliseCallback_data, normaliseCallback_data, List.filter_filter]
  congr 1
  funext d
  simp

theorem onSubscribe_new (uuidStr : String) (self : ESP8266UPnP) (heap : Heap)
    (req : WebRequest)
    (h : ¬ ∃ s ∈ self._subscriptions, s.callbackUrl = normaliseCallback (req.header "CALLBACK")) :
    (self.onSubscribe uuidStr heap req).engine._subscriptions =
      self._subscriptions ++
        [{ callbackUrl := normaliseCallback (req.header "CALLBACK"), sid := uuidStr }] := by
  have hreg : ¬ alreadyRegistered (removeChar (removeChar (req.header "CALLBACK") '>') '<')
      self._subscriptions = true := fun hr => h ((alreadyRegistered_iff _ _).mp hr)
  unfold ESP8266UPnP.onSubscribe
  simp only [hreg]
  rfl

theorem onSubscribe_stored_urls (uuidStr : String) (self : ESP8266UPnP) (heap : Heap)
    (req : WebRequest) :
    ∀ s ∈ (self.onSubscribe uuidStr heap req).engine._subscriptions,
      s ∈ self._subscriptions ∨ s.callbackUrl = normaliseCallback (req.header "CALLBACK") := by
  intro s hs
  by_cases h : ∃ s ∈ self._subscriptions,
      s.callbackUrl = normaliseCallback (req.header "CALLBACK")
  · rw [onSubscribe_existing uuidStr self heap req h] at hs
    exact Or.inl hs
  · rw [onSubscribe_new uuidStr self heap req h, List.mem_append, List.mem_singleton] at hs
    rcases hs with hs | hs
    · exact Or.inl hs
    · exact Or.inr (by rw [hs])

theorem subscribeSequence_no_brackets (heap : Heap) (self : ESP8266UPnP)
    (requests : List (String × WebRequest))
    (h : ∀ s ∈ self._subscriptions, '<' ∉ s.callbackUrl.data ∧ '>' ∉ s.callbackUrl.data) :
    ∀ s ∈ (subscribeSequence heap self requests)._subscriptions,
      '<' ∉ s.callbackUrl.data ∧ '>' ∉ s.callbackUrl.data := by
  induction requests generalizing self with
  | nil => exact h
  | cons r tl ih =>
    obtain ⟨uuidStr, req⟩ := r
    apply ih
    intro s hs
    rcases onSubscribe_stored_urls uuidStr self heap req s hs with h1 | h1
    · exact h s h1
    · rw [h1]; exact normaliseCallback_no_brackets _

/-- Claim C16. The callback URL the subscribe handler stores, and compares with the existing
entries, is the `CALLBACK` header value with every `<` and every `>` removed, wherever they
stand: a request whose normalised URL matches no entry appends that URL with the fresh id,
and one whose normalised URL matches an entry changes nothing. Hence no `callbackUrl` stored
by a run that starts from an empty list holds `<` or `>`, normalising twice equals
normalising once, and two requests whose header values differ only in `<` and `>` characters
lead to one subscription: the second leaves the engine as the first left it. -/
theorem callback_url_is_normalised (heap : Heap) (start self : ESP8266UPnP)
    (requests : List (String × WebRequest)) (uuid1 uuid2 : String) (req1 req2 : WebRequest)
    (callback : String)
    (hempty : start._subscriptions = [])
    (hsame : (req1.header "CALLBACK").data.filter (fun d => d != '<' && d != '>') =
      (req2.header "CALLBACK").data.filter (fun d => d != '<' && d != '>')) :
    normaliseCallback callback =
      String.mk (callback.data.filter (fun d => d != '<' && d != '>')) ∧
    ((¬ ∃ s ∈ self._subscriptions, s.callbackUrl = normaliseCallback (req1.header "CALLBACK")) →
      (self.onSubscribe uuid1 heap req1).engine._subscriptions =
        self._subscriptions ++
          [{ callbackUrl := normaliseCallback (req1.header "CALLBACK"), sid := uuid1 }]) ∧
    ((∃ s ∈ self._subscriptions, s.callbackUrl = normaliseCallback (req1.header "CALLBACK")) →
      (self.onSubscribe uuid1 heap req1).engine = self) ∧
    (∀ s ∈ (subscribeSequence heap start requests)._subscriptions,
      '<' ∉ s.callbackUrl.data ∧ '>' ∉ s.callbackUrl.data) ∧
    normaliseCallback (normaliseCallback callback) = normaliseCallback callback ∧
    ((self.onSubscribe uuid1 heap req1).engine.onSubscribe uuid2 heap req2).engine =
      (self.onSubscribe uuid1 heap req1).engine := by
  have hnorm : normaliseCallback (req2.header "CALLBACK") =
      normaliseCallback (req1.header "CALLBACK") := by
    apply String.ext
    rw [normaliseCallback_data, normaliseCallback_data, hsame]
  refine ⟨String.ext (normaliseCallback_data callback), onSubscribe_new uuid1 self heap req1, ?_,
    ?_, normaliseCallback_idempotent callback, ?_⟩
  · intro h
    rw [onSubscribe_existing uuid1 self heap req1 h]
  · apply subscribeSequence_no_brackets
    rw [hempty]
    intro s hs
    simp at hs
  · have hpresent : ∃ s ∈ (self.onSubscribe uuid1 heap req1).engine._subscriptions,
        s.callbackUrl = strippedCallback req2 := by
      show ∃ s ∈ _, s.callbackUrl = normaliseCallback (req2.header "CALLBACK")
      rw [hnorm]
      by_cases h : ∃ s ∈ self._subscriptions,
          s.callbackUrl = normaliseCallback (req1.header "CALLBACK")
      · rw [onSubscribe_existing uuid1 self heap req1 h]
        exact h
      · rw [onSubscribe_new uuid1 self heap req1 h]
        exact ⟨_, List.mem_append_right _ (List.mem_singleton_self _), rfl⟩
    rw [onSubscribe_existing uuid2 _ heap req2 hpresent]

set_option maxRecDepth 100000 in
/-- Witness for claim C16: the header `ht<tp://x/c>b`, with brackets in the middle, is stored
as `http://x/cb`, and a later request with `<http://x/cb>` adds no entry. -/
theorem callback_normalisation_witness :
    normaliseCallback "ht<tp://x/c>b" = "http://x/cb" ∧
    (ESP8266UPnP.construct.onSubscribe "uuid-1" emptyHeap
      (subscribeRequest "ht<tp://x/c>b" "Second-1800")).engine._subscriptions =
      [{ callbackUrl := "http://x/cb", sid := "uuid-1" }] ∧
    ((ESP8266UPnP.construct.onSubscribe "uuid-1" emptyHeap
      (subscribeRequest "ht<tp://x/c>b" "Second-1800")).engine.onSubscribe "uuid-2" emptyHeap
        bracketedSubscribe).engine =
      (ESP8266UPnP.construct.onSubscribe "uuid-1" emptyHeap
        (subscribeRequest "ht<tp://x/c>b" "Second-1800")).engine :=
  ⟨by decide, by decide,
   (callback_url_is_normalised emptyHeap ESP8266UPnP.construct ESP8266UPnP.construct []
      "uuid-1" "uuid-2" (subscribeRequest "ht<tp://x/c>b" "Second-1800") bracketedSubscribe
      "ht<tp://x/c>b" rfl (by decide)).2.2.2.2.2⟩

end UPnP
